import Mathlib

/-
  Verification of the D12 capture backend core
  (src/host/platform/Windows/capture/D12/d12.c).

  The development is a shallow embedding: each C function that the
  properties concern is translated into an executable Lean definition over
  explicit state.  Machine-integer conversions that the C code performs are
  kept as explicit `% 2 ^ 32` (UINT) and `% 2 ^ 64` (UINT64 / size_t)
  operations where they can change a value.  External collaborators (the
  DXGI/D3D12 driver, the pluggable capture backend, the pointer buffer
  pool) are modelled as oracle inputs: their outcomes are parameters of the
  embedded functions, exactly where the C code consumes a HRESULT or a
  returned pointer.
-/

/-- The modulus of a 32-bit C `unsigned int` / `UINT`. -/
def UINT_MOD : Nat := 2 ^ 32

/-- The modulus of a 64-bit C `UINT64` / x64 `size_t` / `uintptr_t`. -/
def UINT64_MOD : Nat := 2 ^ 64

/-- Capture call status.  Modelled from the spec: `interface/capture.h` is
not among the sources; the spec gives the backend statuses Ok / Error /
Timeout that are passed through, and d12.c itself uses the two values
`CAPTURE_RESULT_OK` and `CAPTURE_RESULT_ERROR`, the latter being the
module's generic failure status (it is the initial value of `result` in
`d12_waitFrame` and `d12_getFrame`). -/
inductive CaptureResult where
  | ok
  | error
  | timeout
deriving DecidableEq

/-- The three fields of `D3D12_RESOURCE_DESC` that d12.c reads: `Width`
(a `UINT64`), `Height` (a `UINT`) and `Format` (a `DXGI_FORMAT` value).
The format-change comparison in `d12_waitFrame` compares exactly these
three fields, and all frame geometry is derived from them; the remaining
fields of the C struct are copied by the `memcpy` but never read. -/
structure ResourceDesc where
  width : Nat
  height : Nat
  format : Nat
deriving DecidableEq

/-- The device-global capture-format tracking state of `struct
D12Interface`: the `lastFormat` descriptor and the `formatVer` counter
(d12.c lines 72-73).  `calloc` zero-initialises both. -/
structure FormatState where
  lastFormat : ResourceDesc
  formatVer : Nat
deriving DecidableEq

/-- The zeroed state `calloc` produces in `d12_create`. -/
def initFormatState : FormatState := { lastFormat := ⟨0, 0, 0⟩, formatVer := 0 }

/-- The comparison `desc.Width != lastFormat.Width || desc.Height !=
lastFormat.Height || desc.Format != lastFormat.Format` of d12.c lines
342-344. -/
def formatChanged (desc lf : ResourceDesc) : Bool :=
  (desc.width != lf.width) || (desc.height != lf.height) || (desc.format != lf.format)

/-- The fields of `CaptureFrame` that `d12_waitFrame` populates (lines
352-366).  Modelled from the spec where the C struct is not among the
sources: each numeric field carries the value of the assigned C
expression. -/
structure CaptureFrame where
  formatVer : Nat
  screenWidth : Nat
  screenHeight : Nat
  dataWidth : Nat
  dataHeight : Nat
  frameWidth : Nat
  frameHeight : Nat
  truncated : Bool
  pitch : Nat
  stride : Nat
deriving DecidableEq

/-- `d12_waitFrame` (d12.c lines 325-373).  Inputs: the format-tracking
state, the result of `d12_backendFetch` for the requested slot (`none`
models a NULL resource), and `maxFrameSize`.  Output: the returned
`CaptureResult`, the new format-tracking state, and the populated frame
descriptor (`none` when the function exits before populating it).

`formatVer` is a C 32-bit `unsigned` (d12.c line 73) and the increment
`++this->formatVer` (line 346) is unsigned arithmetic, which wraps to 0
at `2 ^ 32 - 1`, hence the `% UINT_MOD` on the incremented value.
`maxRows` is declared `const unsigned int` in the source while the
division `maxFrameSize / (desc.Width * 4)` is carried out in 64 bits, so
the quotient is truncated modulo `2 ^ 32` on assignment; `desc.Width * 4`
is `UINT64` arithmetic, hence the `% UINT64_MOD`.  (For `desc.Width = 0`
the C division is undefined behaviour; the theorems about the descriptor
assume a positive width.) -/
def d12_waitFrame (st : FormatState) (fetched : Option ResourceDesc)
    (maxFrameSize : Nat) : CaptureResult × FormatState × Option CaptureFrame :=
  match fetched with
  | none => (.error, st, none)
  | some desc =>
    let st1 : FormatState :=
      if formatChanged desc st.lastFormat then
        { lastFormat := desc, formatVer := (st.formatVer + 1) % UINT_MOD }
      else st
    let maxRows : Nat := maxFrameSize / (desc.width * 4 % UINT64_MOD) % UINT_MOD
    let frame : CaptureFrame :=
      { formatVer := st1.formatVer
        screenWidth := desc.width
        screenHeight := desc.height
        dataWidth := desc.width
        dataHeight := min maxRows desc.height
        frameWidth := desc.width
        frameHeight := desc.height
        truncated := decide (maxRows < desc.height)
        pitch := desc.width * 4 % UINT64_MOD
        stride := desc.width }
    (.ok, st1, some frame)

/-- A sequence of `d12_waitFrame` calls (over any slot indices: the
format-tracking state is device-global, the slot index only selects what
the backend fetch yields).  Each call is the pair of its fetch result and
its `maxFrameSize`. -/
def runWaitFrames (st : FormatState)
    (calls : List (Option ResourceDesc × Nat)) : FormatState :=
  calls.foldl (fun s c => (d12_waitFrame s c.1 c.2).2.1) st

/-- A caller-supplied `FrameBuffer`: its identity (the `FrameBuffer *`
pointer value compared by `fb->frameBuffer == frameBuffer`) and the
address returned by `framebuffer_get_data`, used for the placement offset
inside the shared heap. -/
structure FrameBufferRef where
  ptr : Nat
  dataPtr : Nat
deriving DecidableEq

/-- A placed `ID3D12Resource` created by `ID3D12Device3_CreatePlacedResource`:
`id` is a fresh identity distinguishing distinct driver objects, and the
offset and size it was created with. -/
structure PlacedResource where
  id : Nat
  heapOffset : Nat
  size : Nat
deriving DecidableEq

/-- One entry of the trailing `frameBuffers[]` array of `struct
D12Interface` (d12.c lines 79-88): the recorded size (`unsigned`), the
bound `FrameBuffer *` (`none` models the NULL from `calloc`), and the
cached placed resource. -/
structure SlotCache where
  size : Nat
  frameBuffer : Option Nat
  resource : Option PlacedResource
deriving DecidableEq

/-- The parts of `struct D12Interface` that `d12_frameBufferToResource`
touches: the shared-memory base address `ivshmemBase`, the per-slot cache
entries, and a counter supplying fresh identities for driver-created
resources. -/
structure D12State where
  ivshmemBase : Nat
  slots : Nat → SlotCache
  nextId : Nat

/-- The zeroed interface state `calloc` produces: every slot cache entry
is `{0, NULL, NULL}`. -/
def d12InitialState : D12State :=
  { ivshmemBase := 0, slots := fun _ => ⟨0, none, none⟩, nextId := 0 }

/-- `d12_frameBufferToResource` (d12.c lines 524-583).  `createOk` is the
driver oracle: the outcome of `ID3D12Device3_CreatePlacedResource` when it
is reached.  Returns the resource handed to the caller (`none` = NULL on
failure) and the new interface state.

Cache hit (line 533): the entry holds a resource, the bound `FrameBuffer *`
equals the request's, and the recorded size is at least the requested
size; the cached resource is returned (after an `AddRef`, not modelled)
and nothing is touched.  Otherwise the entry's `size` and `frameBuffer`
are overwritten *before* the creation attempt (lines 540-541); the
placement offset is `framebuffer_get_data(frameBuffer) - ivshmemBase`
(`uintptr_t` difference, equal to the natural-number difference whenever
the destination lies inside the heap); on driver success the new resource
replaces the cached one, on driver failure the function exits with NULL
leaving `size` and `frameBuffer` already overwritten. -/
def d12_frameBufferToResource (st : D12State) (idx : Nat) (fb : FrameBufferRef)
    (size : Nat) (createOk : Bool) : Option PlacedResource × D12State :=
  let fbSlot := st.slots idx
  if fbSlot.resource.isSome = true ∧ fbSlot.frameBuffer = some fb.ptr ∧
      fbSlot.size ≥ size then
    (fbSlot.resource, st)
  else
    let offset := fb.dataPtr - st.ivshmemBase
    let slot1 : SlotCache :=
      { size := size, frameBuffer := some fb.ptr, resource := fbSlot.resource }
    if createOk then
      let res : PlacedResource := { id := st.nextId, heapOffset := offset, size := size }
      (some res,
       { st with
           slots := fun j => if j = idx then { slot1 with resource := some res } else st.slots j
           nextId := st.nextId + 1 })
    else
      (none, { st with slots := fun j => if j = idx then slot1 else st.slots j })

/-- The `D3D12_PLACED_SUBRESOURCE_FOOTPRINT` recorded by
`ID3D12GraphicsCommandList_CopyTextureRegion` in `d12_getFrame` (lines
404-420).  `Width`, `Height` and `RowPitch` are `UINT` fields of the SDK
struct, so the assigned 64-bit expressions are truncated modulo
`2 ^ 32`. -/
structure CopyFootprint where
  offset : Nat
  format : Nat
  width : Nat
  height : Nat
  depth : Nat
  rowPitch : Nat
deriving DecidableEq

/-- What one `d12_getFrame` call produces: the returned status, the new
interface state (the resource cache may have been touched), the
destination frame buffer's write cursor after the call, whether
`d12_commandGroupExecute` submitted the command group, and the copy
footprint recorded into the command list (`none` when the call exited
before recording the copy). -/
structure GetFrameOut where
  result : CaptureResult
  st : D12State
  writePtr : Nat
  submitted : Bool
  footprint : Option CopyFootprint

/-- `d12_getFrame` (d12.c lines 375-438).  Oracle inputs: `fetched` is the
result of `d12_backendFetch` together with the descriptor of the fetched
resource; `createOk` is the driver outcome inside
`d12_frameBufferToResource` (the call passes `maxFrameSize`, a `size_t`,
to the `unsigned size` parameter, hence the `% UINT_MOD`); `sync` is the
status returned by `d12_backendSync`.  `wp0` is the destination frame
buffer's write cursor before the call; on the success path
`framebuffer_set_write_ptr(frameBuffer, desc.Height * desc.Width * 4)`
sets it to the 64-bit product. -/
def d12_getFrame (st : D12State) (idx : Nat) (fb : FrameBufferRef) (wp0 : Nat)
    (maxFrameSize : Nat) (fetched : Option ResourceDesc) (createOk : Bool)
    (sync : CaptureResult) : GetFrameOut :=
  match fetched with
  | none => { result := .error, st := st, writePtr := wp0, submitted := false, footprint := none }
  | some desc =>
    let dstRes := d12_frameBufferToResource st idx fb (maxFrameSize % UINT_MOD) createOk
    match dstRes.1 with
    | none =>
      { result := .error, st := dstRes.2, writePtr := wp0, submitted := false, footprint := none }
    | some _ =>
      let fp : CopyFootprint :=
        { offset := 0
          format := desc.format
          width := desc.width % UINT_MOD
          height := desc.height % UINT_MOD
          depth := 1
          rowPitch := desc.width * 4 % UINT64_MOD % UINT_MOD }
      if sync = .ok then
        { result := .ok, st := dstRes.2
          writePtr := desc.height * desc.width * 4 % UINT64_MOD
          submitted := true, footprint := some fp }
      else
        { result := sync, st := dstRes.2, writePtr := wp0, submitted := false,
          footprint := some fp }

/-- The `CapturePointer` event as far as `d12_updatePointer` reads and
writes it: the `shapeUpdate` flag. -/
structure CapturePointer where
  shapeUpdate : Bool
deriving DecidableEq

/-- What one `d12_updatePointer` call does: the event handed to
`postPointerBufferFn` (always exactly one), and the `memcpy` it performed,
as the pair of the destination address and the copied byte count (`none`
when no copy was executed). -/
structure PointerOut where
  posted : CapturePointer
  copied : Option (Nat × Nat)
deriving DecidableEq

/-- `d12_updatePointer` (d12.c lines 585-602).  `acquire` is the outcome
of `getPointerBufferFn`: `some (dst, dstSize)` on success, `none` on
failure.  `garbageDst` and `garbageSize` are the indeterminate values the
uninitialised locals `dst` and `dstSize` hold when the acquisition fails:
the source clears `pointer->shapeUpdate` in that case but falls through —
there is no `else` — and still executes
`memcpy(dst, shape, min(dstSize, shapeSize))` with those uninitialised
values (undefined behaviour in C). -/
def d12_updatePointer (pointer : CapturePointer) (shapeSize : Nat)
    (acquire : Option (Nat × Nat)) (garbageDst garbageSize : Nat) : PointerOut :=
  if pointer.shapeUpdate then
    match acquire with
    | some (dst, dstSize) =>
      { posted := pointer, copied := some (dst, min dstSize shapeSize) }
    | none =>
      { posted := { pointer with shapeUpdate := false }
        copied := some (garbageDst, min garbageSize shapeSize) }
  else
    { posted := pointer, copied := none }

/-- A DXGI output as `d12_enumerateDevices` reads it: the
`AttachedToDesktop` flag of its `DXGI_OUTPUT_DESC`. -/
structure OutputInfo where
  attachedToDesktop : Bool
deriving DecidableEq

/-- A DXGI adapter as `d12_enumerateDevices` reads it: the `VendorId` and
`DeviceId` of its `DXGI_ADAPTER_DESC1` and its outputs in enumeration
order. -/
structure AdapterInfo where
  vendorId : Nat
  deviceId : Nat
  outputs : List OutputInfo
deriving DecidableEq

/-- The fixed blacklist of d12.c lines 463-469: Microsoft Basic Render
Driver, QXL, QEMU Standard VGA. -/
def blacklist : List (Nat × Nat) :=
  [(0x1414, 0x008c), (0x1b36, 0x000d), (0x1234, 0x1111)]

/-- The inner blacklist scan of d12.c lines 471-482. -/
def isBlacklisted (a : AdapterInfo) : Bool :=
  blacklist.any fun p => (a.vendorId == p.1) && (a.deviceId == p.2)

/-- The output loop of d12.c lines 488-498: the first output whose
descriptor has `AttachedToDesktop` set (`none` when the enumeration is
exhausted, in which case the C local `*output` is NULL). -/
def firstAttached : List OutputInfo → Option OutputInfo
  | [] => none
  | o :: rest => if o.attachedToDesktop then some o else firstAttached rest

/-- An adapter that `d12_enumerateDevices` can select: not blacklisted and
owning an output attached to the active desktop. -/
def selectableB (a : AdapterInfo) : Bool :=
  !isBlacklisted a && (firstAttached a.outputs).isSome

/-- `d12_enumerateDevices` (d12.c lines 440-522), over the adapters in
driver enumeration order.  A blacklisted adapter is skipped (`continue`);
otherwise its outputs are scanned for the first one attached to the
desktop and the loop stops at the first adapter yielding one (`if
(*output) break`).  `none` models the `return false` of `!*output`
(`DeviceNotFound`). -/
def d12_enumerateDevices : List AdapterInfo → Option (AdapterInfo × OutputInfo)
  | [] => none
  | a :: rest =>
    if isBlacklisted a then d12_enumerateDevices rest
    else
      match firstAttached a.outputs with
      | some o => some (a, o)
      | none => d12_enumerateDevices rest

/-- The two command-queue priorities d12.c uses:
`D3D12_COMMAND_QUEUE_PRIORITY_GLOBAL_REALTIME` and
`D3D12_COMMAND_QUEUE_PRIORITY_HIGH` (lines 236 and 249). -/
inductive QueuePriority where
  | globalRealtime
  | high
deriving DecidableEq

/-- What the queue-creation section of `d12_init` produces: the priority
the queue was created at (`none` = bring-up fails with the queue-creation
error), the priority the `static` descriptor remembers afterwards, and
the ordered list of priorities attempted. -/
structure QueueCreateOut where
  created : Option QueuePriority
  remembered : QueuePriority
  attempts : List QueuePriority
deriving DecidableEq

/-- The initial `Priority` of the `static D3D12_COMMAND_QUEUE_DESC` of
d12.c lines 233-238. -/
def initialQueuePriority : QueuePriority := .globalRealtime

/-- The `retryCreateCommandQueue` loop of `d12_init` (d12.c lines
240-255).  `start` is the priority the `static` descriptor currently
holds — `GLOBAL_REALTIME` on the first bring-up, but the descriptor is
`static` precisely so that a downgrade is remembered across bring-ups
(comment at lines 231-232).  `accept` is the driver oracle for
`ID3D12Device3_CreateCommandQueue` at a given priority.  On failure at
`GLOBAL_REALTIME` the priority is set to `HIGH` and the creation is
retried once; failure at any other priority exits the bring-up. -/
def d12_createCommandQueue (start : QueuePriority)
    (accept : QueuePriority → Bool) : QueueCreateOut :=
  if accept start then
    { created := some start, remembered := start, attempts := [start] }
  else if start = .globalRealtime then
    if accept .high then
      { created := some .high, remembered := .high, attempts := [.globalRealtime, .high] }
    else
      { created := none, remembered := .high, attempts := [.globalRealtime, .high] }
  else
    { created := none, remembered := start, attempts := [start] }

/-- Claim C9 counterexample: when the backend fetch yields no resource,
`d12_waitFrame` returns `CAPTURE_RESULT_ERROR` — the very value `result`
is initialised to, and the same status `d12_getFrame` returns on its own
fetch miss — not a status distinct from the generic error. -/
theorem d12_waitFrame_fetchMiss_counterexample :
    (d12_waitFrame initFormatState none 1024).1 = CaptureResult.error
  ∧ (d12_getFrame d12InitialState 0 ⟨0, 0⟩ 0 1024 none true CaptureResult.ok).result
      = CaptureResult.error :=
  ⟨rfl, rfl⟩

/-- Claim C9 (amended): for every `waitFrame` call whose backend fetch
yields no resource for the requested slot, the call returns the generic
error status `CAPTURE_RESULT_ERROR` (the module defines no distinct
frame-not-ready status), leaves the frame descriptor unpopulated and the
format-tracking state unchanged. -/
theorem d12_waitFrame_fetchMiss_spec (st : FormatState) (m : Nat) :
    d12_waitFrame st none m = (CaptureResult.error, st, none)
  ∧ (d12_waitFrame st none m).1 = (d12_getFrame d12InitialState 0 ⟨0, 0⟩ 0 1024
      none true CaptureResult.ok).result :=
  ⟨rfl, rfl⟩

/-- A driver that rejects the real-time queue priority and accepts the
high priority. -/
def acceptOnlyHigh : QueuePriority → Bool
  | .globalRealtime => false
  | .high => true

/-- A driver that accepts every queue priority. -/
def acceptAll : QueuePriority → Bool := fun _ => true

/-- Claim C8 counterexample: the command-queue descriptor is `static` and
remembers a downgrade, so a bring-up that follows a downgraded bring-up
makes its first (and only) creation attempt at the high priority, not at
the real-time priority. -/
theorem d12_createCommandQueue_counterexample :
    (d12_createCommandQueue
        (d12_createCommandQueue initialQueuePriority acceptOnlyHigh).remembered
        acceptAll).attempts = [QueuePriority.high]
  ∧ (d12_createCommandQueue
        (d12_createCommandQueue initialQueuePriority acceptOnlyHigh).remembered
        acceptAll).attempts.head? ≠ some QueuePriority.globalRealtime := by
  constructor <;> decide

/-- Claim C8 (amended): queue creation starts at the priority the static
descriptor currently remembers — the real-time priority on the first
bring-up.  Within one bring-up starting at real-time priority: success at
real-time ends the sequence after one attempt; on rejection exactly one
further attempt is made at the high priority, and if that also fails the
bring-up fails with no third attempt.  For any remembered starting
priority at most two attempts are made, a first-attempt success ends the
sequence at once, and no priority other than the starting one and high is
ever attempted; the downgrade is remembered, so a bring-up after a
downgrade starts (and stops) at the high priority. -/
theorem d12_createCommandQueue_spec (accept : QueuePriority → Bool) :
    ((d12_createCommandQueue .globalRealtime accept).attempts.head?
        = some .globalRealtime)
  ∧ (accept .globalRealtime = true →
      d12_createCommandQueue .globalRealtime accept
        = { created := some .globalRealtime, remembered := .globalRealtime,
            attempts := [.globalRealtime] })
  ∧ (accept .globalRealtime = false →
      (d12_createCommandQueue .globalRealtime accept).attempts
          = [.globalRealtime, .high]
      ∧ (d12_createCommandQueue .globalRealtime accept).remembered = .high
      ∧ (accept .high = true →
          (d12_createCommandQueue .globalRealtime accept).created = some .high)
      ∧ (accept .high = false →
          (d12_createCommandQueue .globalRealtime accept).created = none))
  ∧ (∀ start : QueuePriority,
      (d12_createCommandQueue start accept).attempts.length ≤ 2
      ∧ (accept start = true →
          d12_createCommandQueue start accept
            = { created := some start, remembered := start, attempts := [start] })
      ∧ ∀ p ∈ (d12_createCommandQueue start accept).attempts,
          p = start ∨ p = QueuePriority.high) := by
  refine ⟨?_, ?_, ?_, ?_⟩
  · cases h1 : accept .globalRealtime <;>
      cases h2 : accept .high <;>
      simp [d12_createCommandQueue, h1, h2]
  · intro h1
    simp [d12_createCommandQueue, h1]
  · intro h1
    cases h2 : accept .high <;>
      simp [d12_createCommandQueue, h1, h2]
  · intro start
    cases h1 : accept start
    · cases start
      · cases h2 : accept .high <;> simp [d12_createCommandQueue, h1, h2]
      · simp [d12_createCommandQueue, h1]
    · simp [d12_createCommandQueue, h1]

/-- Claim C6, the code at the failing input: when the event signals a
shape change and the buffer-pool acquisition fails, the source clears the
shape-change flag and posts the event, but — missing an `else` — it still
executes the `memcpy`, using the uninitialised locals `dst` and `dstSize`
(modelled by the universally quantified garbage values); the copy is not
suppressed.  The success path copies exactly `min(dstSize, shapeSize)`
bytes, and the event reaches the consumer exactly once in every case. -/
theorem d12_updatePointer_failedAcquire_copies (garbageDst garbageSize : Nat) :
    ((d12_updatePointer ⟨true⟩ 16 none garbageDst garbageSize).copied
        = some (garbageDst, min garbageSize 16)
      ∧ (d12_updatePointer ⟨true⟩ 16 none garbageDst garbageSize).posted = ⟨false⟩)
  ∧ (∀ dst cap shapeSize : Nat,
      (d12_updatePointer ⟨true⟩ shapeSize (some (dst, cap)) garbageDst garbageSize).copied
        = some (dst, min cap shapeSize)
      ∧ (d12_updatePointer ⟨true⟩ shapeSize (some (dst, cap)) garbageDst
          garbageSize).posted = ⟨true⟩)
  ∧ (∀ shapeSize : Nat, ∀ acq : Option (Nat × Nat),
      (d12_updatePointer ⟨false⟩ shapeSize acq garbageDst garbageSize).copied = none
      ∧ (d12_updatePointer ⟨false⟩ shapeSize acq garbageDst garbageSize).posted
          = ⟨false⟩) :=
  ⟨⟨rfl, rfl⟩, fun _ _ _ => ⟨rfl, rfl⟩, fun _ _ => ⟨rfl, rfl⟩⟩

/-- The three-field comparison of d12.c lines 342-344 is false exactly on
an unchanged (width, height, format) triple. -/
theorem formatChanged_false_iff (d lf : ResourceDesc) :
    formatChanged d lf = false ↔ d = lf := by
  cases d; cases lf
  simp [formatChanged, ResourceDesc.mk.injEq]
  tauto

/-- The three-field comparison of d12.c lines 342-344 is true exactly on a
changed (width, height, format) triple. -/
theorem formatChanged_true_iff (d lf : ResourceDesc) :
    formatChanged d lf = true ↔ d ≠ lf := by
  cases d; cases lf
  simp [formatChanged, ResourceDesc.mk.injEq]
  tauto

/-- One `d12_waitFrame` call moves the 32-bit format version up by at
most one, and — below the wrap point of the `unsigned` counter — never
down. -/
theorem waitFrame_formatVer_step (st : FormatState)
    (c : Option ResourceDesc × Nat) :
    ((d12_waitFrame st c.1 c.2).2.1).formatVer ≤ st.formatVer + 1
  ∧ (st.formatVer + 1 < UINT_MOD →
      st.formatVer ≤ ((d12_waitFrame st c.1 c.2).2.1).formatVer) := by
  rcases c with ⟨fetched, m⟩
  cases fetched
  · exact ⟨Nat.le_succ _, fun _ => le_refl _⟩
  · simp only [d12_waitFrame]
    split
    · refine ⟨Nat.mod_le _ _, ?_⟩
      intro h
      rw [Nat.mod_eq_of_lt h]
      exact Nat.le_succ _
    · exact ⟨Nat.le_succ _, fun _ => le_refl _⟩

/-- A sequence of `d12_waitFrame` calls short enough that the 32-bit
counter cannot wrap (each call adds at most one) never decreases the
format version and adds at most the number of calls. -/
theorem runWaitFrames_bounded (calls : List (Option ResourceDesc × Nat)) :
    ∀ st : FormatState, st.formatVer + calls.length < UINT_MOD →
      st.formatVer ≤ (runWaitFrames st calls).formatVer
      ∧ (runWaitFrames st calls).formatVer ≤ st.formatVer + calls.length := by
  induction calls with
  | nil => exact fun st _ => ⟨le_refl _, le_refl _⟩
  | cons c rest ih =>
    intro st hlen
    obtain ⟨hup, hdown⟩ := waitFrame_formatVer_step st c
    have hlen1 : st.formatVer + 1 < UINT_MOD := by
      simp only [List.length_cons] at hlen
      omega
    have hlen2 :
        ((d12_waitFrame st c.1 c.2).2.1).formatVer + rest.length < UINT_MOD := by
      simp only [List.length_cons] at hlen
      omega
    obtain ⟨ih1, ih2⟩ := ih ((d12_waitFrame st c.1 c.2).2.1) hlen2
    simp only [runWaitFrames, List.foldl_cons, List.length_cons] at ih1 ih2 ⊢
    exact ⟨le_trans (hdown hlen1) ih1, by omega⟩

/-- Claim C2 counterexample: `formatVer` is a 32-bit C `unsigned`; at the
representable state `formatVer = 2 ^ 32 - 1` a call observing a changed
format wraps the counter to 0 — a strict decrease, not an increment by
one — refuting both the non-decrease and the exact-increment parts of the
claim at that state. -/
theorem d12_waitFrame_formatVer_counterexample :
    ((d12_waitFrame { lastFormat := ⟨0, 0, 0⟩, formatVer := UINT_MOD - 1 }
        (some ⟨1920, 1080, 87⟩) 8294400).2.1).formatVer = 0
  ∧ 0 < UINT_MOD - 1
  ∧ (UINT_MOD - 1) + 1 ≠ 0 := by
  refine ⟨by decide, by decide, by decide⟩

/-- Claim C2 (amended): the device-global format version is a 32-bit
unsigned counter.  A `waitFrame` call whose fetched descriptor's (width,
height, format) triple differs from the last-observed format sets it to
`(v + 1) mod 2 ^ 32` and records the new format; a call whose triple
equals the last-observed format, or whose fetch yields no resource,
leaves the state untouched.  Below the wrap point (`v + 1 < 2 ^ 32`) a
distinct-format call increments the counter by exactly one, and across
every sequence of calls short enough that the counter cannot reach the
wrap point it is non-decreasing and gains at most one per call. -/
theorem d12_waitFrame_formatVer_spec (st : FormatState) (desc : ResourceDesc)
    (m : Nat) (calls : List (Option ResourceDesc × Nat)) :
    (((d12_waitFrame st (some desc) m).2.1).formatVer
        = (if desc = st.lastFormat then st.formatVer
           else (st.formatVer + 1) % UINT_MOD))
  ∧ (desc = st.lastFormat → (d12_waitFrame st (some desc) m).2.1 = st)
  ∧ (desc ≠ st.lastFormat →
      (d12_waitFrame st (some desc) m).2.1
        = { lastFormat := desc, formatVer := (st.formatVer + 1) % UINT_MOD })
  ∧ ((d12_waitFrame st none m).2.1 = st)
  ∧ (desc ≠ st.lastFormat → st.formatVer + 1 < UINT_MOD →
      ((d12_waitFrame st (some desc) m).2.1).formatVer = st.formatVer + 1)
  ∧ (st.formatVer + calls.length < UINT_MOD →
      st.formatVer ≤ (runWaitFrames st calls).formatVer
      ∧ (runWaitFrames st calls).formatVer ≤ st.formatVer + calls.length) := by
  refine ⟨?_, ?_, ?_, rfl, ?_, runWaitFrames_bounded calls st⟩
  · by_cases hd : desc = st.lastFormat
    · have hfc := (formatChanged_false_iff desc st.lastFormat).mpr hd
      rw [hd] at hfc
      simp [d12_waitFrame, hfc, hd]
    · simp [d12_waitFrame, (formatChanged_true_iff desc st.lastFormat).mpr hd, hd]
  · intro hd
    simp [d12_waitFrame, (formatChanged_false_iff desc st.lastFormat).mpr hd]
  · intro hd
    simp [d12_waitFrame, (formatChanged_true_iff desc st.lastFormat).mpr hd]
  · intro hd hv
    simp [d12_waitFrame, (formatChanged_true_iff desc st.lastFormat).mpr hd,
      Nat.mod_eq_of_lt hv]

/-- Claim C5 counterexample: at `maxFrameSize = 2 ^ 34` on a 1-by-1
surface, `floor(maxFrameSize / (width * 4)) = 2 ^ 32`, but `maxRows` is a
C `unsigned int`, so the code stores `0`: the descriptor reports
`dataHeight = 0` and `truncated = true`, while the claim's formulas
predict `dataHeight = min(2 ^ 32, 1) = 1` and `truncated = (2 ^ 32 < 1) =
false`. -/
theorem d12_waitFrame_geometry_counterexample :
    ((d12_waitFrame initFormatState (some ⟨1, 1, 87⟩) (2 ^ 34)).2.2.map
        CaptureFrame.dataHeight = some 0)
  ∧ ((d12_waitFrame initFormatState (some ⟨1, 1, 87⟩) (2 ^ 34)).2.2.map
        CaptureFrame.truncated = some true)
  ∧ min (2 ^ 34 / (1 * 4)) 1 = 1
  ∧ decide (2 ^ 34 / (1 * 4) < 1) = false := by
  refine ⟨?_, ?_, by decide, by decide⟩ <;> decide

/-- Claim C5 (amended): for every successful `waitFrame` on a fetched
resource of width `w > 0` (with `w * 4` representable in 64 bits and `h`
a `UINT` value), the descriptor satisfies `dataHeight = min(maxRows, h)`,
`truncated = (maxRows < h)`, `pitch = w * 4` and `stride = w`, where
`maxRows = floor(maxFrameSize / (w * 4)) mod 2 ^ 32` — the quotient
truncated to `maxRows`'s C `unsigned int` type.  Whenever the quotient
fits 32 bits this is exactly `floor(maxFrameSize / (w * 4))`; in
particular `maxFrameSize = w * h * 4` gives `truncated = false` and
`dataHeight = h`, and `maxFrameSize < w * h * 4` gives `truncated = true`
and `dataHeight = floor(maxFrameSize / (w * 4)) ≤ h`. -/
theorem d12_waitFrame_geometry_spec (st : FormatState) (w h f m : Nat)
    (hw : 0 < w) (hw64 : w * 4 < UINT64_MOD) (hh : h < UINT_MOD) :
    (d12_waitFrame st (some ⟨w, h, f⟩) m).1 = CaptureResult.ok
  ∧ ∀ fr, (d12_waitFrame st (some ⟨w, h, f⟩) m).2.2 = some fr →
      fr.dataHeight = min (m / (w * 4) % UINT_MOD) h
    ∧ fr.truncated = decide (m / (w * 4) % UINT_MOD < h)
    ∧ fr.pitch = w * 4
    ∧ fr.stride = w
    ∧ fr.screenWidth = w
    ∧ fr.screenHeight = h
    ∧ (m / (w * 4) < UINT_MOD →
        fr.dataHeight = min (m / (w * 4)) h
        ∧ fr.truncated = decide (m / (w * 4) < h))
    ∧ (m = w * h * 4 → fr.truncated = false ∧ fr.dataHeight = h)
    ∧ (m < w * h * 4 → fr.truncated = true ∧ fr.dataHeight = m / (w * 4)
        ∧ fr.dataHeight ≤ h) := by
  have hw4 : 0 < w * 4 := by positivity
  have hmod : w * 4 % UINT64_MOD = w * 4 := Nat.mod_eq_of_lt hw64
  refine ⟨rfl, ?_⟩
  intro fr hfr
  simp only [d12_waitFrame, Option.some.injEq] at hfr
  subst hfr
  rw [hmod]
  refine ⟨rfl, rfl, rfl, rfl, rfl, rfl, ?_, ?_, ?_⟩
  · intro hq
    rw [Nat.mod_eq_of_lt hq]
    exact ⟨rfl, rfl⟩
  · intro hm
    subst hm
    have heq : w * h * 4 = h * (w * 4) := by ring
    rw [heq, Nat.mul_div_cancel h hw4, Nat.mod_eq_of_lt hh]
    simp
  · intro hm
    have heq : w * h * 4 = h * (w * 4) := by ring
    rw [heq] at hm
    have hq : m / (w * 4) < h := (Nat.div_lt_iff_lt_mul hw4).mpr hm
    have hq32 : m / (w * 4) < UINT_MOD := lt_trans hq hh
    rw [Nat.mod_eq_of_lt hq32]
    refine ⟨by simp [hq], ?_, ?_⟩
    · exact min_eq_left (le_of_lt hq)
    · rw [min_eq_left (le_of_lt hq)]
      exact le_of_lt hq

/-- Claim C5 witness: the spec's own scenario — a 1920-by-1080 32-bit
surface with `maxFrameSize = 1920 * 1080 * 4 = 8294400` — satisfies the
amended claim's hypotheses, and the call succeeds. -/
theorem d12_waitFrame_geometry_spec_witness :
    (d12_waitFrame initFormatState (some ⟨1920, 1080, 87⟩) 8294400).1
      = CaptureResult.ok :=
  (d12_waitFrame_geometry_spec initFormatState 1920 1080 87 8294400 (by decide)
    (by decide) (by decide)).1

/-- Claim C3: a `resourceFor` request finding the slot's entry with a
cached resource, the same destination-buffer identity and a cached size at
least the requested size returns exactly the cached resource and changes
nothing (no new placed resource is created); a request for which the entry
is empty, the identity differs or the requested size exceeds the cached
size creates (driver permitting) a placed resource of the requested size
at the destination buffer's offset inside the shared heap, replaces the
slot's entry with it, and leaves every other slot untouched. -/
theorem d12_frameBufferToResource_cache_spec (st : D12State) (idx : Nat)
    (fb : FrameBufferRef) (size : Nat) (createOk : Bool) :
    (∀ r, (st.slots idx).resource = some r →
      (st.slots idx).frameBuffer = some fb.ptr →
      size ≤ (st.slots idx).size →
        d12_frameBufferToResource st idx fb size createOk = (some r, st))
  ∧ (((st.slots idx).resource = none ∨ (st.slots idx).frameBuffer ≠ some fb.ptr
        ∨ (st.slots idx).size < size) →
      (d12_frameBufferToResource st idx fb size true).1
          = some ⟨st.nextId, fb.dataPtr - st.ivshmemBase, size⟩
      ∧ ((d12_frameBufferToResource st idx fb size true).2.slots idx)
          = ⟨size, some fb.ptr, some ⟨st.nextId, fb.dataPtr - st.ivshmemBase, size⟩⟩
      ∧ (d12_frameBufferToResource st idx fb size true).2.nextId = st.nextId + 1
      ∧ (d12_frameBufferToResource st idx fb size true).2.ivshmemBase = st.ivshmemBase
      ∧ ∀ j, j ≠ idx →
          (d12_frameBufferToResource st idx fb size true).2.slots j = st.slots j) := by
  constructor
  · intro r hr hfb hsz
    have hcond : (st.slots idx).resource.isSome = true
        ∧ (st.slots idx).frameBuffer = some fb.ptr
        ∧ (st.slots idx).size ≥ size := ⟨by simp [hr], hfb, hsz⟩
    simp only [d12_frameBufferToResource]
    rw [if_pos hcond]
    simp [hr]
  · intro hmiss
    have hcond : ¬ ((st.slots idx).resource.isSome = true
        ∧ (st.slots idx).frameBuffer = some fb.ptr
        ∧ (st.slots idx).size ≥ size) := by
      rcases hmiss with h | h | h
      · rintro ⟨h1, -, -⟩
        rw [h] at h1
        simp at h1
      · rintro ⟨-, h2, -⟩
        exact h h2
      · rintro ⟨-, -, h3⟩
        omega
    simp only [d12_frameBufferToResource]
    rw [if_neg hcond]
    refine ⟨by simp, by simp, by simp, by simp, ?_⟩
    intro j hj
    simp [hj]

/-- A prior interface state whose slot 0 already caches a resource bound
to another frame buffer. -/
def c4PriorState : D12State :=
  { ivshmemBase := 0
    slots := fun _ =>
      { size := 100, frameBuffer := some 555, resource := some ⟨7, 0, 100⟩ }
    nextId := 8 }

/-- Claim C4 counterexample: a cache-miss request (different destination
buffer, larger size) whose placed-resource creation fails reports the
failure, but the slot's entry is *not* left unchanged: `fb->size` and
`fb->frameBuffer` were overwritten with the request's values before the
creation attempt, so afterwards the entry records the new identity 666 and
size 200 while still holding the old cached resource. -/
theorem d12_frameBufferToResource_createFail_counterexample :
    ((d12_frameBufferToResource c4PriorState 0 ⟨666, 4096⟩ 200 false).2.slots 0
        ≠ c4PriorState.slots 0)
  ∧ (d12_frameBufferToResource c4PriorState 0 ⟨666, 4096⟩ 200 false).1 = none
  ∧ ((d12_frameBufferToResource c4PriorState 0 ⟨666, 4096⟩ 200 false).2.slots 0).frameBuffer
      = some 666
  ∧ ((d12_frameBufferToResource c4PriorState 0 ⟨666, 4096⟩ 200 false).2.slots 0).size
      = 200
  ∧ ((d12_frameBufferToResource c4PriorState 0 ⟨666, 4096⟩ 200 false).2.slots 0).resource
      = some ⟨7, 0, 100⟩ := by
  refine ⟨by decide, by decide, by decide, by decide, by decide⟩

/-- Claim C4 (amended): if creation of the placed resource fails in
`resourceFor` on a cache miss, the call reports the failure (returns NULL)
and the slot's cached resource handle and every other slot are left
unchanged, but the slot's destination-buffer identity and recorded size
are already overwritten with the request's values before the creation
attempt, so on failure they reflect the failed request rather than the
prior state. -/
theorem d12_frameBufferToResource_createFail_spec (st : D12State) (idx : Nat)
    (fb : FrameBufferRef) (size : Nat)
    (hmiss : (st.slots idx).resource = none
      ∨ (st.slots idx).frameBuffer ≠ some fb.ptr
      ∨ (st.slots idx).size < size) :
    (d12_frameBufferToResource st idx fb size false).1 = none
  ∧ ((d12_frameBufferToResource st idx fb size false).2.slots idx)
      = { size := size, frameBuffer := some fb.ptr,
          resource := (st.slots idx).resource }
  ∧ (d12_frameBufferToResource st idx fb size false).2.nextId = st.nextId
  ∧ (d12_frameBufferToResource st idx fb size false).2.ivshmemBase = st.ivshmemBase
  ∧ ∀ j, j ≠ idx →
      (d12_frameBufferToResource st idx fb size false).2.slots j = st.slots j := by
  have hcond : ¬ ((st.slots idx).resource.isSome = true
      ∧ (st.slots idx).frameBuffer = some fb.ptr
      ∧ (st.slots idx).size ≥ size) := by
    rcases hmiss with h | h | h
    · rintro ⟨h1, -, -⟩
      rw [h] at h1
      simp at h1
    · rintro ⟨-, h2, -⟩
      exact h h2
    · rintro ⟨-, -, h3⟩
      omega
  simp only [d12_frameBufferToResource]
  rw [if_neg hcond]
  refine ⟨by simp, by simp, by simp, by simp, ?_⟩
  intro j hj
  simp [hj]

/-- Claim C4 witness: a first-use miss (empty slot) with a failing driver
reports the failure. -/
theorem d12_frameBufferToResource_createFail_spec_witness :
    (d12_frameBufferToResource d12InitialState 0 ⟨666, 4096⟩ 200 false).1 = none :=
  (d12_frameBufferToResource_createFail_spec d12InitialState 0 ⟨666, 4096⟩ 200
    (Or.inl rfl)).1

/-- Claim C1: `getFrame` sets the destination frame buffer's write cursor
(to the value of `desc.Height * desc.Width * 4`) if and only if the whole
copy-and-submit sequence reported success: a fetch miss, a cache failure
or a non-Ok backend sync status each make the call return before the
command group is submitted, with the write cursor unchanged; on success
the command group is submitted and the cursor is set to
`height * width * 4` (exactly, whenever that product fits 64 bits). -/
theorem d12_getFrame_writeCursor_spec (st : D12State) (idx : Nat)
    (fb : FrameBufferRef) (wp0 m : Nat) (fetched : Option ResourceDesc)
    (createOk : Bool) (sync : CaptureResult) :
    ((d12_getFrame st idx fb wp0 m fetched createOk sync).result = CaptureResult.ok
      ↔ (d12_getFrame st idx fb wp0 m fetched createOk sync).submitted = true)
  ∧ ((d12_getFrame st idx fb wp0 m fetched createOk sync).result ≠ CaptureResult.ok →
      (d12_getFrame st idx fb wp0 m fetched createOk sync).submitted = false
      ∧ (d12_getFrame st idx fb wp0 m fetched createOk sync).writePtr = wp0)
  ∧ (∀ desc, fetched = some desc →
      (d12_getFrame st idx fb wp0 m fetched createOk sync).result = CaptureResult.ok →
      (d12_getFrame st idx fb wp0 m fetched createOk sync).writePtr
          = desc.height * desc.width * 4 % UINT64_MOD
      ∧ (desc.height * desc.width * 4 < UINT64_MOD →
          (d12_getFrame st idx fb wp0 m fetched createOk sync).writePtr
            = desc.height * desc.width * 4))
  ∧ (fetched = none →
      (d12_getFrame st idx fb wp0 m fetched createOk sync).result
        = CaptureResult.error)
  ∧ (fetched ≠ none →
      (d12_frameBufferToResource st idx fb (m % UINT_MOD) createOk).1 = none →
      (d12_getFrame st idx fb wp0 m fetched createOk sync).result
        = CaptureResult.error)
  ∧ (fetched ≠ none →
      (d12_frameBufferToResource st idx fb (m % UINT_MOD) createOk).1 ≠ none →
      sync ≠ CaptureResult.ok →
      (d12_getFrame st idx fb wp0 m fetched createOk sync).result = sync
      ∧ (d12_getFrame st idx fb wp0 m fetched createOk sync).submitted = false) := by
  cases fetched with
  | none =>
    simp [d12_getFrame]
  | some desc =>
    cases hdst : (d12_frameBufferToResource st idx fb (m % UINT_MOD) createOk).1 with
    | none =>
      simp [d12_getFrame, hdst]
    | some r =>
      by_cases hs : sync = CaptureResult.ok
      · subst hs
        simp [d12_getFrame, hdst]
        exact fun h => Nat.mod_eq_of_lt h
      · simp [d12_getFrame, hdst, hs]

/-- Claim C10: every successful `getFrame` records the copy with a
footprint covering the full source surface — `height` rows of `width * 4`
bytes each (`Width = width`, `Height = height`, `RowPitch = width * 4`,
offset 0, depth 1) — and sets the write cursor to `height * width * 4`,
with `maxFrameSize` appearing nowhere in these values: the universally
quantified `m` includes every `maxFrameSize < height * width * 4`, where
the destination placed resource is only `maxFrameSize` bytes, and the copy
extent and cursor are the same m-free expressions.  The bounds are the
no-overflow conditions of the `UINT` footprint fields and the `UINT64`
cursor product. -/
theorem d12_getFrame_fullCopy_spec (st : D12State) (idx : Nat)
    (fb : FrameBufferRef) (wp0 m : Nat) (desc : ResourceDesc)
    (createOk : Bool) (sync : CaptureResult)
    (hw : desc.width * 4 < UINT_MOD) (hh : desc.height < UINT_MOD)
    (hok : (d12_getFrame st idx fb wp0 m (some desc) createOk sync).result
      = CaptureResult.ok) :
    (d12_getFrame st idx fb wp0 m (some desc) createOk sync).footprint
      = some { offset := 0, format := desc.format, width := desc.width,
               height := desc.height, depth := 1, rowPitch := desc.width * 4 }
  ∧ (d12_getFrame st idx fb wp0 m (some desc) createOk sync).writePtr
      = desc.height * desc.width * 4 := by
  have hw1 : desc.width < UINT_MOD := by
    have : desc.width ≤ desc.width * 4 := Nat.le_mul_of_pos_right _ (by norm_num)
    omega
  have hw64 : desc.width * 4 < UINT64_MOD := by
    have : UINT_MOD ≤ UINT64_MOD := by norm_num [UINT_MOD, UINT64_MOD]
    omega
  have hcur : desc.height * desc.width * 4 < UINT64_MOD := by
    have h1 : desc.height * (desc.width * 4) < UINT_MOD * UINT_MOD :=
      Nat.mul_lt_mul_of_lt_of_lt hh hw
    have h2 : UINT_MOD * UINT_MOD = UINT64_MOD := by
      norm_num [UINT_MOD, UINT64_MOD]
    have h3 : desc.height * desc.width * 4 = desc.height * (desc.width * 4) := by
      ring
    omega
  cases hdst : (d12_frameBufferToResource st idx fb (m % UINT_MOD) createOk).1 with
  | none =>
    rw [show (d12_getFrame st idx fb wp0 m (some desc) createOk sync).result
        = CaptureResult.error by simp [d12_getFrame, hdst]] at hok
    exact absurd hok (by simp)
  | some r =>
    by_cases hs : sync = CaptureResult.ok
    · subst hs
      simp only [d12_getFrame, hdst]
      constructor
      · simp [CopyFootprint.mk.injEq, Nat.mod_eq_of_lt hw1,
          Nat.mod_eq_of_lt hw64, Nat.mod_eq_of_lt hw, Nat.mod_eq_of_lt hh]
      · simp [Nat.mod_eq_of_lt hcur]
    · rw [show (d12_getFrame st idx fb wp0 m (some desc) createOk sync).result
          = sync by simp [d12_getFrame, hdst, hs]] at hok
      exact absurd hok hs

/-- Claim C10 witness: a 1920-by-1080 BGRA source with `maxFrameSize =
100` (far below `height * width * 4 = 8294400`) still gets a full-surface
footprint and the cursor value 8294400. -/
theorem d12_getFrame_fullCopy_spec_witness :
    (d12_getFrame d12InitialState 0 ⟨64, 64⟩ 0 100 (some ⟨1920, 1080, 87⟩) true
        CaptureResult.ok).footprint
      = some { offset := 0, format := 87, width := 1920, height := 1080,
               depth := 1, rowPitch := 7680 }
  ∧ (d12_getFrame d12InitialState 0 ⟨64, 64⟩ 0 100 (some ⟨1920, 1080, 87⟩) true
        CaptureResult.ok).writePtr = 8294400 := by
  have h := d12_getFrame_fullCopy_spec d12InitialState 0 ⟨64, 64⟩ 0 100
    ⟨1920, 1080, 87⟩ true CaptureResult.ok (by decide) (by decide) (by decide)
  exact ⟨h.1, h.2⟩

/-- The output scan comes up empty exactly when no output of the adapter
is attached to the active desktop. -/
theorem firstAttached_none_iff (outs : List OutputInfo) :
    firstAttached outs = none ↔ ∀ o ∈ outs, o.attachedToDesktop = false := by
  induction outs with
  | nil => simp [firstAttached]
  | cons o rest ih =>
    cases h : o.attachedToDesktop <;>
      simp [firstAttached, h, ih, List.forall_mem_cons]

/-- The output scan returns the first output attached to the active
desktop: the outputs before it are all unattached. -/
theorem firstAttached_some (outs : List OutputInfo) (o : OutputInfo) :
    firstAttached outs = some o →
      o.attachedToDesktop = true
      ∧ ∃ pre post, outs = pre ++ o :: post
          ∧ ∀ p ∈ pre, p.attachedToDesktop = false := by
  induction outs with
  | nil => simp [firstAttached]
  | cons x rest ih =>
    intro hf
    cases h : x.attachedToDesktop
    · rw [firstAttached, h] at hf
      simp only [Bool.false_eq_true, if_false] at hf
      obtain ⟨hatt, pre, post, heq, hpre⟩ := ih hf
      refine ⟨hatt, x :: pre, post, by simp [heq], ?_⟩
      intro p hp
      rcases List.mem_cons.mp hp with rfl | hp
      · exact h
      · exact hpre p hp
    · rw [firstAttached, h] at hf
      simp only [if_true] at hf
      obtain rfl : x = o := Option.some.inj hf
      exact ⟨h, [], rest, rfl, by simp⟩

/-- Claim C7: whatever the enumeration order of adapters and outputs,
selection never returns a blacklisted adapter; a returned pair is the
first adapter that is neither blacklisted nor without an output attached
to the active desktop, paired with that adapter's first attached output;
and selection fails (the `DeviceNotFound` exit) exactly when every
enumerated adapter is blacklisted or has no attached output. -/
theorem d12_enumerateDevices_spec (l : List AdapterInfo) :
    (∀ a o, d12_enumerateDevices l = some (a, o) →
        isBlacklisted a = false
      ∧ o.attachedToDesktop = true
      ∧ (∃ opre opost, a.outputs = opre ++ o :: opost
          ∧ ∀ p ∈ opre, p.attachedToDesktop = false)
      ∧ (∃ pre post, l = pre ++ a :: post ∧ ∀ b ∈ pre, selectableB b = false))
  ∧ (d12_enumerateDevices l = none ↔ ∀ a ∈ l, selectableB a = false) := by
  induction l with
  | nil => simp [d12_enumerateDevices]
  | cons x rest ih =>
    obtain ⟨ih1, ih2⟩ := ih
    by_cases hb : isBlacklisted x = true
    · have hsel : selectableB x = false := by simp [selectableB, hb]
      have hred : d12_enumerateDevices (x :: rest) = d12_enumerateDevices rest := by
        simp [d12_enumerateDevices, hb]
      constructor
      · intro a o hao
        rw [hred] at hao
        obtain ⟨h1, h2, h3, pre, post, heq, hpre⟩ := ih1 a o hao
        refine ⟨h1, h2, h3, x :: pre, post, by simp [heq], ?_⟩
        intro b hbm
        rcases List.mem_cons.mp hbm with rfl | hbm
        · exact hsel
        · exact hpre b hbm
      · rw [hred, ih2]
        simp [List.forall_mem_cons, hsel]
    · have hb' : isBlacklisted x = false := by simpa using hb
      cases hf : firstAttached x.outputs with
      | some o0 =>
        have hred : d12_enumerateDevices (x :: rest) = some (x, o0) := by
          simp [d12_enumerateDevices, hb', hf]
        have hselx : selectableB x = true := by simp [selectableB, hb', hf]
        constructor
        · intro a o hao
          rw [hred] at hao
          have hpair : (x, o0) = (a, o) := Option.some.inj hao
          obtain ⟨rfl, rfl⟩ : x = a ∧ o0 = o :=
            ⟨congrArg Prod.fst hpair, congrArg Prod.snd hpair⟩
          obtain ⟨hatt, opre, opost, hoeq, hopre⟩ := firstAttached_some _ _ hf
          exact ⟨hb', hatt, ⟨opre, opost, hoeq, hopre⟩, [], rest, rfl, by simp⟩
        · rw [hred]
          simp [List.forall_mem_cons, hselx]
      | none =>
        have hsel : selectableB x = false := by simp [selectableB, hf]
        have hred : d12_enumerateDevices (x :: rest) = d12_enumerateDevices rest := by
          simp [d12_enumerateDevices, hb', hf]
        constructor
        · intro a o hao
          rw [hred] at hao
          obtain ⟨h1, h2, h3, pre, post, heq, hpre⟩ := ih1 a o hao
          refine ⟨h1, h2, h3, x :: pre, post, by simp [heq], ?_⟩
          intro b hbm
          rcases List.mem_cons.mp hbm with rfl | hbm
          · exact hsel
          · exact hpre b hbm
        · rw [hred, ih2]
          simp [List.forall_mem_cons, hsel]

/-- The spec's two-adapter scenario: a blacklisted QXL virtual adapter
with an attached output enumerated first, then a real adapter whose
second output is attached to the desktop. -/
def c7DemoAdapters : List AdapterInfo :=
  [ { vendorId := 0x1b36, deviceId := 0x000d,
      outputs := [{ attachedToDesktop := true }] },
    { vendorId := 0x10de, deviceId := 0x2204,
      outputs := [{ attachedToDesktop := false }, { attachedToDesktop := true }] } ]

/-- Claim C7 witness: on the two-adapter scenario selection picks the real
adapter (skipping the blacklisted one that is enumerated first, despite
its attached output) and that adapter is not blacklisted. -/
theorem d12_enumerateDevices_spec_witness :
    isBlacklisted
      { vendorId := 0x10de, deviceId := 0x2204,
        outputs := [{ attachedToDesktop := false }, { attachedToDesktop := true }] }
      = false
  ∧ OutputInfo.attachedToDesktop { attachedToDesktop := true } = true := by
  have h := (d12_enumerateDevices_spec c7DemoAdapters).1
    { vendorId := 0x10de, deviceId := 0x2204,
      outputs := [{ attachedToDesktop := false }, { attachedToDesktop := true }] }
    { attachedToDesktop := true } (by decide)
  exact ⟨h.1, h.2.1⟩
